import Mathlib

/-
Verification of the `nquadratic` operator registration fragment
(src/operator/nn/nquadratic_op.cc) of nswamy/incubator-mxnet.

The fragment registers one forward operator `nquadratic` and one backward
operator `_nbackward_quadratic` with the NNVM registry.  The registration
layer itself (names, arities, gradient linkage, in-place hint) is embedded
directly from the source file.  The kernel bodies, the shape/type inference
functions and the parameter parser live in `nquadratic_op-inl.h`, which the
fragment only includes and which is not part of this source tree; those are
modelled from the specification and marked as such in their doc comments.
-/

namespace NQuadratic

/-- Parameter struct of the operator: immutable scalar coefficients
`{a, b, c}` of the quadratic `a*x^2 + b*x + c`, attached to a node at
construction time.  Kept polymorphic in the scalar type so that the kernel
theorems hold for any carrier of the arithmetic operations (the C++ kernel is
instantiated per dtype by `MSHADOW_TYPE_SWITCH`). -/
structure NQuadraticOpParam (α : Type) where
  a : α
  b : α
  c : α
  deriving DecidableEq, Repr

/-- Modelled from the spec: the per-element forward transform of the missing
kernel body in `nquadratic_op-inl.h`, `out[i] = a*in[i]^2 + b*in[i] + c`. -/
def quadPoint {α : Type} [Mul α] [Add α] (p : NQuadraticOpParam α) (x : α) : α :=
  p.a * x * x + p.b * x + p.c

/-- Modelled from the spec: the forward kernel (missing `NQuadraticOpForward`
body), a pure elementwise map of `quadPoint` over the input buffer. -/
def NQuadraticOpForward {α : Type} [Mul α] [Add α]
    (p : NQuadraticOpParam α) (in_data : List α) : List α :=
  in_data.map (fun x => quadPoint p x)

/-- Modelled from the spec: the per-element backward transform,
`grad_in[i] = grad_out[i] * (2*a*in[i] + b)`. -/
def gradPoint {α : Type} [Mul α] [Add α] [OfNat α 2]
    (p : NQuadraticOpParam α) (g x : α) : α :=
  g * (2 * p.a * x + p.b)

/-- Modelled from the spec: the backward kernel (missing
`NQuadraticOpBackward` body), consuming the output-gradient buffer and the
original forward-input buffer, elementwise. -/
def NQuadraticOpBackward {α : Type} [Mul α] [Add α] [OfNat α 2]
    (p : NQuadraticOpParam α) (out_grad in_data : List α) : List α :=
  List.zipWith (fun g x => gradPoint p g x) out_grad in_data

/- ## Registration metadata, embedded from nquadratic_op.cc -/

/-- Which tensors of the forward node a gradient-linkage entry feeds to the
instantiated backward node. -/
inductive GradInputKind where
  | outputGrad (slot : Nat)
  | forwardInput (slot : Nat)
  | forwardOutput (slot : Nat)
  deriving DecidableEq, Repr

/-- A gradient linkage: the name of the backward operator to instantiate and
the tensors handed to it, in order. -/
structure GradLinkage where
  op_name : String
  grad_inputs : List GradInputKind
  deriving DecidableEq, Repr

/-- Modelled from the spec: `ElemwiseGradUseIn`, defined in framework headers
outside this fragment, builds a gradient linkage whose backward node consumes
the gradient flowing into the forward output and the original forward input
(not the forward output). -/
def ElemwiseGradUseIn (name : String) : GradLinkage :=
  { op_name := name, grad_inputs := [GradInputKind.outputGrad 0, GradInputKind.forwardInput 0] }

/-- Static operator registration record: the attribute bag that
`NNVM_REGISTER_OP` fills in. -/
structure OpRegistration where
  name : String
  num_inputs : Nat
  num_outputs : Nat
  input_names : List String
  gradient : Option GradLinkage
  inplace_option : List (Nat × Nat)
  is_backward : Bool
  deriving DecidableEq, Repr

/-- Registration of the forward operator, from `NNVM_REGISTER_OP(nquadratic)`
in nquadratic_op.cc. -/
def nquadratic : OpRegistration :=
  { name := "nquadratic"
    num_inputs := 1
    num_outputs := 1
    input_names := ["data"]
    gradient := some (ElemwiseGradUseIn ("_nbackward_quadratic"))
    inplace_option := [(0, 0)]
    is_backward := false }

/-- Registration of the backward operator, from
`NNVM_REGISTER_OP(_nbackward_quadratic)` in nquadratic_op.cc. -/
def nbackward_quadratic : OpRegistration :=
  { name := "_nbackward_quadratic"
    num_inputs := 2
    num_outputs := 1
    input_names := []
    gradient := none
    inplace_option := []
    is_backward := true }

/- ## Shape and type inference -/

/-- A tensor shape: an ordered sequence of dimensions.  The empty sequence is
the unknown/unset shape. -/
abbrev Shape := List Nat

inductive ShapeError where
  | shapeUnknown
  | arityMismatch
  deriving DecidableEq, Repr

/-- Modelled from the spec: shape inference (missing `NQuadraticOpShape`
body).  Exactly one input shape; if it is known (non-empty) the output shape
is set identical to it, otherwise a `ShapeError` is reported. -/
def NQuadraticOpShape (in_shapes : List Shape) : Except ShapeError (List Shape) :=
  match in_shapes with
  | [s] => if s.isEmpty then Except.error ShapeError.shapeUnknown else Except.ok [s]
  | _ => Except.error ShapeError.arityMismatch

/-- Dtype tags of the framework; `unknown` is the unresolved tag (-1 in the
C++ encoding). -/
inductive DType where
  | float16
  | float32
  | float64
  | uint8
  | int8
  | int32
  | int64
  | unknown
  deriving DecidableEq, Repr

inductive TypeError where
  | typeUnresolved
  | arityMismatch
  deriving DecidableEq, Repr

/-- Modelled from the spec: type inference (missing `NQuadraticOpType` body).
The output dtype is forced equal to the input dtype; an unresolved input
dtype is a `TypeError`. -/
def NQuadraticOpType (in_types : List DType) : Except TypeError (List DType) :=
  match in_types with
  | [t] => if t = DType.unknown then Except.error TypeError.typeUnresolved else Except.ok [t]
  | _ => Except.error TypeError.arityMismatch

/- ## Buffer-level forward execution, for the in-place aliasing property -/

/-- Write value `v` at index `i` of a buffer. -/
def writeBuf {α : Type} (buf : Nat → α) (i : Nat) (v : α) : Nat → α :=
  fun j => if j = i then v else buf j

/-- Forward kernel over explicit buffers with disjoint input and output
storage: iterate `out[i] := quadPoint p (in[i])` for `i` below `n`. -/
def forwardLoop {α : Type} [Mul α] [Add α] (p : NQuadraticOpParam α)
    (inBuf outBuf : Nat → α) : Nat → (Nat → α)
  | 0 => outBuf
  | Nat.succ n => writeBuf (forwardLoop p inBuf outBuf n) n (quadPoint p (inBuf n))

/-- Forward kernel with the output buffer aliased to the input buffer, as the
advertised in-place option permits: each step reads and overwrites the same
storage. -/
def forwardLoopAliased {α : Type} [Mul α] [Add α] (p : NQuadraticOpParam α)
    (buf : Nat → α) : Nat → (Nat → α)
  | 0 => buf
  | Nat.succ n => writeBuf (forwardLoopAliased p buf n) n (quadPoint p (forwardLoopAliased p buf n n))

/- ## Parameter parsing -/

inductive ParamError where
  | parameterParseError
  deriving DecidableEq, Repr

/-- Accumulate a digit list into a natural number, most significant first. -/
def digitsToNat (cs : List Char) : Nat :=
  cs.foldl (fun acc ch => 10 * acc + (ch.toNat - 48)) 0

/-- Modelled from the spec: parsing of one textual coefficient as a finite
decimal number (the framework `dmlc::Parameter` field parser, outside this
fragment).  Accepts an optional sign, an integer part and an optional
fraction part, with at least one digit; anything else, including non-finite
literals, fails. -/
def parseRat (s : String) : Option ℚ :=
  let cs := s.toList
  let signed : ℚ × List Char :=
    match cs with
    | ch :: rest =>
        if ch = '-' then (-1, rest) else if ch = '+' then (1, rest) else (1, cs)
    | [] => (1, [])
  let sign := signed.1
  let body := signed.2
  let intDigits := body.takeWhile Char.isDigit
  let rest := body.dropWhile Char.isDigit
  match rest with
  | [] =>
      if intDigits.isEmpty then none
      else some (sign * (digitsToNat intDigits : ℚ))
  | ch :: tail =>
      if ch = '.' then
        let fracDigits := tail.takeWhile Char.isDigit
        let leftover := tail.dropWhile Char.isDigit
        if leftover.isEmpty && !(intDigits.isEmpty && fracDigits.isEmpty) then
          some (sign * ((digitsToNat intDigits : ℚ) +
            (digitsToNat fracDigits : ℚ) / (10 : ℚ) ^ fracDigits.length))
        else none
      else none

/-- String attribute map handed to the node at construction: the recognized
option names are a, b and c; a missing field is `none`. -/
structure AttrMap where
  a : Option String
  b : Option String
  c : Option String
  deriving DecidableEq, Repr

/-- Parse one optional attribute: an omitted option defaults to 0, a present
one must parse as a finite number. -/
def parseCoeff (o : Option String) : Except ParamError ℚ :=
  match o with
  | none => Except.ok 0
  | some s =>
      match parseRat s with
      | some v => Except.ok v
      | none => Except.error ParamError.parameterParseError

/-- Modelled from the spec: the node attribute parser
(`ParamParser<NQuadraticOpParam>` via `DMLC_REGISTER_PARAMETER`, outside this
fragment): converts the textual attribute map into the typed parameter
struct at node-construction time. -/
def ParamParser (m : AttrMap) : Except ParamError (NQuadraticOpParam ℚ) := do
  let a ← parseCoeff m.a
  let b ← parseCoeff m.b
  let c ← parseCoeff m.c
  return ⟨a, b, c⟩

/-- Whether one optional attribute would parse. -/
def attrOkB (o : Option String) : Bool :=
  match o with
  | none => true
  | some s => (parseRat s).isSome

/-- The coefficient value an attribute denotes: 0 when omitted, the parsed
value when present and parseable. -/
def coeffVal (o : Option String) : ℚ :=
  match o with
  | none => 0
  | some s => (parseRat s).getD 0

end NQuadratic

namespace NQuadratic

/- ## Helper lemmas -/

theorem forwardLoopAliased_stable {α : Type} [Mul α] [Add α] (p : NQuadraticOpParam α)
    (buf : Nat → α) : ∀ n i, n ≤ i → forwardLoopAliased p buf n i = buf i := by
  intro n
  induction n with
  | zero => intro i _; rfl
  | succ m ih =>
      intro i hi
      have hne : i ≠ m := by omega
      simp only [forwardLoopAliased, writeBuf, if_neg hne]
      exact ih i (by omega)

theorem forwardLoopAliased_run {α : Type} [Mul α] [Add α] (p : NQuadraticOpParam α)
    (buf : Nat → α) : ∀ n i, i < n → forwardLoopAliased p buf n i = quadPoint p (buf i) := by
  intro n
  induction n with
  | zero => intro i hi; omega
  | succ m ih =>
      intro i hi
      by_cases hc : i = m
      · subst hc
        simp only [forwardLoopAliased, writeBuf, if_pos rfl]
        rw [forwardLoopAliased_stable p buf i i (le_refl i)]
        simp
      · simp only [forwardLoopAliased, writeBuf, if_neg hc]
        exact ih i (by omega)

theorem forwardLoop_run {α : Type} [Mul α] [Add α] (p : NQuadraticOpParam α)
    (inBuf outBuf : Nat → α) :
    ∀ n i, i < n → forwardLoop p inBuf outBuf n i = quadPoint p (inBuf i) := by
  intro n
  induction n with
  | zero => intro i hi; omega
  | succ m ih =>
      intro i hi
      by_cases hc : i = m
      · subst hc
        simp only [forwardLoop, writeBuf, if_pos rfl]
        simp
      · simp only [forwardLoop, writeBuf, if_neg hc]
        exact ih i (by omega)

theorem parseCoeff_eq (o : Option String) :
    parseCoeff o = if attrOkB o then Except.ok (coeffVal o)
      else Except.error ParamError.parameterParseError := by
  cases o with
  | none => rfl
  | some s =>
      cases h : parseRat s with
      | none => simp [parseCoeff, attrOkB, coeffVal, h]
      | some v => simp [parseCoeff, attrOkB, coeffVal, h]

/-- End-to-end sanity check from the spec: forward of [1, 2, 3] under
{a:2, b:3, c:1} is [6, 15, 28]. -/
theorem forward_end_to_end :
    NQuadraticOpForward (⟨2, 3, 1⟩ : NQuadraticOpParam ℤ) [1, 2, 3] = [6, 15, 28] := by
  decide

/-- End-to-end sanity check from the spec: backward of grad [1, 1, 1] and
input [1, 2, 3] under {a:2, b:3, c:1} is [7, 11, 15]. -/
theorem backward_end_to_end :
    NQuadraticOpBackward (⟨2, 3, 1⟩ : NQuadraticOpParam ℤ) [1, 1, 1] [1, 2, 3] = [7, 11, 15] := by
  decide

/- ## Claim theorems -/

/-- C1: for every input buffer, coefficients a, b, c and every index i of
the output buffer, the forward kernel writes
out[i] = a*in[i]^2 + b*in[i] + c. -/
theorem nquadratic_forward_formula {α : Type} [Mul α] [Add α]
    (p : NQuadraticOpParam α) (in_data : List α) (i : Nat) (h : i < in_data.length) :
    (NQuadraticOpForward p in_data)[i]? =
      some (p.a * in_data[i] * in_data[i] + p.b * in_data[i] + p.c) := by
  simp [NQuadraticOpForward, quadPoint, List.getElem?_map, List.getElem?_eq_getElem h]

/-- Witness for C1 at the spec end-to-end example. -/
theorem nquadratic_forward_formula_witness :
    1 < ([1, 2, 3] : List ℤ).length ∧
    (NQuadraticOpForward (⟨2, 3, 1⟩ : NQuadraticOpParam ℤ) [1, 2, 3])[1]? = some (15 : ℤ) := by
  refine ⟨by decide, ?_⟩
  have h := nquadratic_forward_formula (⟨2, 3, 1⟩ : NQuadraticOpParam ℤ) [1, 2, 3] 1 (by decide)
  rw [h]
  decide

/-- C2: for every output-gradient buffer, original-input buffer and
coefficients a, b, c, the backward kernel produces
grad_in[i] = grad_out[i] * (2*a*in[i] + b) at every index i. -/
theorem nquadratic_backward_formula {α : Type} [Mul α] [Add α] [OfNat α 2]
    (p : NQuadraticOpParam α) (out_grad in_data : List α) (i : Nat)
    (h1 : i < out_grad.length) (h2 : i < in_data.length) :
    (NQuadraticOpBackward p out_grad in_data)[i]? =
      some (out_grad[i] * (2 * p.a * in_data[i] + p.b)) := by
  simp [NQuadraticOpBackward, gradPoint, List.getElem?_zipWith,
    List.getElem?_eq_getElem h1, List.getElem?_eq_getElem h2]

/-- Witness for C2 at the spec end-to-end example. -/
theorem nquadratic_backward_formula_witness :
    1 < ([1, 1, 1] : List ℤ).length ∧ 1 < ([1, 2, 3] : List ℤ).length ∧
    (NQuadraticOpBackward (⟨2, 3, 1⟩ : NQuadraticOpParam ℤ) [1, 1, 1] [1, 2, 3])[1]? =
      some (11 : ℤ) := by
  refine ⟨by decide, by decide, ?_⟩
  have h := nquadratic_backward_formula (⟨2, 3, 1⟩ : NQuadraticOpParam ℤ)
    [1, 1, 1] [1, 2, 3] 1 (by decide) (by decide)
  rw [h]
  decide

/-- C3: shape inference on a known (non-empty) input shape S succeeds with
output [S]; it fails with a ShapeError exactly when the single input shape
is unset/unknown (empty). -/
theorem nquadratic_shape_inference (s : Shape) :
    (s ≠ [] → NQuadraticOpShape [s] = Except.ok [s]) ∧
    (s = [] → NQuadraticOpShape [s] = Except.error ShapeError.shapeUnknown) := by
  constructor
  · intro h
    cases s with
    | nil => exact absurd rfl h
    | cons d ds => rfl
  · intro h
    subst h
    rfl

/-- Witness for C3 at the shape [2, 3]. -/
theorem nquadratic_shape_inference_witness :
    ([2, 3] : Shape) ≠ [] ∧ NQuadraticOpShape [[2, 3]] = Except.ok [[2, 3]] :=
  ⟨by decide, (nquadratic_shape_inference [2, 3]).1 (by decide)⟩

/-- C4: type inference on a resolved input dtype T succeeds with output [T];
it fails with a TypeError exactly when the input dtype is unresolved. -/
theorem nquadratic_type_inference (t : DType) :
    (t ≠ DType.unknown → NQuadraticOpType [t] = Except.ok [t]) ∧
    (t = DType.unknown → NQuadraticOpType [t] = Except.error TypeError.typeUnresolved) := by
  constructor
  · intro h
    simp [NQuadraticOpType, h]
  · intro h
    subst h
    rfl

/-- Witness for C4 at the dtype float32. -/
theorem nquadratic_type_inference_witness :
    DType.float32 ≠ DType.unknown ∧
    NQuadraticOpType [DType.float32] = Except.ok [DType.float32] :=
  ⟨by decide, (nquadratic_type_inference DType.float32).1 (by decide)⟩

/-- C5: shape and type inference are idempotent: whenever an invocation
succeeds, re-invoking the inference function on the already-resolved result
succeeds again and returns that same result. -/
theorem nquadratic_inference_idempotent (s : Shape) (t : DType)
    (out_s : List Shape) (out_t : List DType) :
    (NQuadraticOpShape [s] = Except.ok out_s → NQuadraticOpShape out_s = Except.ok out_s) ∧
    (NQuadraticOpType [t] = Except.ok out_t → NQuadraticOpType out_t = Except.ok out_t) := by
  constructor
  · intro h
    cases s with
    | nil => simp [NQuadraticOpShape] at h
    | cons d ds =>
        simp [NQuadraticOpShape] at h
        subst h
        rfl
  · intro h
    by_cases ht : t = DType.unknown
    · subst ht
      simp [NQuadraticOpType] at h
    · simp [NQuadraticOpType, ht] at h
      subst h
      simp [NQuadraticOpType, ht]

/-- Witness for C5: re-running inference on the resolved shape [[4]] and
dtype [float64] reproduces them. -/
theorem nquadratic_inference_idempotent_witness :
    NQuadraticOpShape [[4]] = Except.ok [[4]] ∧
    NQuadraticOpType [DType.float64] = Except.ok [DType.float64] :=
  ⟨(nquadratic_inference_idempotent [4] DType.float64 [[4]] [DType.float64]).1 rfl,
   (nquadratic_inference_idempotent [4] DType.float64 [[4]] [DType.float64]).2 rfl⟩

/-- C6: running the forward kernel with the output buffer aliased to the
input buffer, as the advertised inplace option [(0,0)] permits, writes at
every index below the buffer length the same value as running it with a
disjoint output buffer. -/
theorem nquadratic_inplace_safe {α : Type} [Mul α] [Add α] (p : NQuadraticOpParam α)
    (buf outBuf : Nat → α) (n i : Nat) (h : i < n) :
    forwardLoopAliased p buf n i = forwardLoop p buf outBuf n i ∧
    nquadratic.inplace_option = [(0, 0)] := by
  constructor
  · rw [forwardLoopAliased_run p buf n i h, forwardLoop_run p buf outBuf n i h]
  · rfl

/-- Witness for C6 on a three-element integer buffer at index 1. -/
theorem nquadratic_inplace_safe_witness :
    1 < 3 ∧ (forwardLoopAliased (⟨2, 3, 1⟩ : NQuadraticOpParam ℤ) (fun j => (j : ℤ)) 3 1 =
      forwardLoop (⟨2, 3, 1⟩ : NQuadraticOpParam ℤ) (fun j => (j : ℤ)) (fun _ => 0) 3 1 ∧
      nquadratic.inplace_option = [(0, 0)]) :=
  ⟨by decide,
   nquadratic_inplace_safe (⟨2, 3, 1⟩ : NQuadraticOpParam ℤ) (fun j => (j : ℤ))
     (fun _ => 0) 3 1 (by decide)⟩

/-- C7 counterexample: the gradient linkage registered for the forward
operator does not name a backward operator called backward-quadratic. -/
theorem nquadratic_gradient_name_counterexample :
    Option.map GradLinkage.op_name nquadratic.gradient ≠ some ("backward-quadratic") := by
  decide

/-- C7 (amended): the gradient linkage names the backward operator
_nbackward_quadratic, hands it the gradient of the forward output and the
forward input (not the forward output), and that backward operator is
registered with two inputs and one output. -/
theorem nquadratic_gradient_linkage :
    Option.map GradLinkage.op_name nquadratic.gradient = some ("_nbackward_quadratic") ∧
    Option.map GradLinkage.grad_inputs nquadratic.gradient =
      some [GradInputKind.outputGrad 0, GradInputKind.forwardInput 0] ∧
    nbackward_quadratic.name = "_nbackward_quadratic" ∧
    nbackward_quadratic.num_inputs = 2 ∧
    nbackward_quadratic.num_outputs = 1 := by
  refine ⟨by decide, by decide, by decide, rfl, rfl⟩

/-- C8: parameter parsing maps the string attributes a, b, c to the typed
parameter struct, defaulting every omitted option to 0; it returns a
ParameterParseError at construction exactly when some present attribute
fails to parse as a number. -/
theorem nquadratic_param_parsing (m : AttrMap) :
    ParamParser ⟨none, none, none⟩ = Except.ok ⟨0, 0, 0⟩ ∧
    ((attrOkB m.a ∧ attrOkB m.b ∧ attrOkB m.c) →
      ParamParser m = Except.ok ⟨coeffVal m.a, coeffVal m.b, coeffVal m.c⟩) ∧
    (¬(attrOkB m.a ∧ attrOkB m.b ∧ attrOkB m.c) →
      ParamParser m = Except.error ParamError.parameterParseError) := by
  refine ⟨rfl, ?_, ?_⟩
  · intro h
    obtain ⟨ha, hb, hc⟩ := h
    simp [ParamParser, parseCoeff_eq, ha, hb, hc, Bind.bind, Except.bind, Pure.pure, Except.pure]
  · intro h
    by_cases ha : attrOkB m.a <;> by_cases hb : attrOkB m.b <;> by_cases hc : attrOkB m.c <;>
      simp [ParamParser, parseCoeff_eq, ha, hb, hc, Bind.bind, Except.bind,
        Pure.pure, Except.pure] at h ⊢

/-- Witness for C8: an all-omitted map parses to the zero struct and a map
with an unparseable coefficient fails at construction. -/
theorem nquadratic_param_parsing_witness :
    ParamParser ⟨none, none, none⟩ = Except.ok ⟨0, 0, 0⟩ ∧
    ParamParser ⟨some ("2.5"), some ("xyz"), none⟩ =
      Except.error ParamError.parameterParseError := by
  refine ⟨(nquadratic_param_parsing ⟨none, none, none⟩).1, ?_⟩
  exact (nquadratic_param_parsing ⟨some ("2.5"), some ("xyz"), none⟩).2.2 (by decide)

/-- C9: the kernels are total: for every parameter struct and buffers of any
length (the empty buffer included) the forward kernel yields a buffer of the
same length, the backward kernel yields a buffer of the common length, and
every element is obtained by pushing the input element through the
arithmetic formula, for an arbitrary carrier of the arithmetic operations —
no value is treated as a failure. -/
theorem nquadratic_kernels_total {α : Type} [Mul α] [Add α] [OfNat α 2]
    (p : NQuadraticOpParam α) (in_data out_grad : List α) :
    (NQuadraticOpForward p in_data).length = in_data.length ∧
    (out_grad.length = in_data.length →
      (NQuadraticOpBackward p out_grad in_data).length = in_data.length) ∧
    NQuadraticOpForward p ([] : List α) = [] ∧
    NQuadraticOpBackward p ([] : List α) [] = [] ∧
    (∀ i : Nat, (NQuadraticOpForward p in_data)[i]? =
      (in_data[i]?).map (fun x => quadPoint p x)) := by
  refine ⟨by simp [NQuadraticOpForward], ?_, rfl, rfl, ?_⟩
  · intro h
    simp [NQuadraticOpBackward, List.length_zipWith, h]
  · intro i
    simp [NQuadraticOpForward, List.getElem?_map]

/-- Witness for C9 at a concrete integer instance, empty buffers included. -/
theorem nquadratic_kernels_total_witness :
    (NQuadraticOpBackward (⟨2, 3, 1⟩ : NQuadraticOpParam ℤ) [1, 1, 1] [1, 2, 3]).length =
      ([1, 2, 3] : List ℤ).length :=
  (nquadratic_kernels_total (⟨2, 3, 1⟩ : NQuadraticOpParam ℤ) [1, 2, 3] [1, 1, 1]).2.1 (by decide)

/-- C10: the backward kernel ignores the coefficient c: two parameter
structs differing only in c produce identical grad_in buffers on all
output-gradient and original-input buffers. -/
theorem nquadratic_backward_ignores_c {α : Type} [Mul α] [Add α] [OfNat α 2]
    (a b c1 c2 : α) (out_grad in_data : List α) :
    NQuadraticOpBackward ⟨a, b, c1⟩ out_grad in_data =
      NQuadraticOpBackward ⟨a, b, c2⟩ out_grad in_data := rfl

end NQuadratic
